import Mathlib

/-!
Shallow embedding of the polite-retry failure-protection primitives:
backoff calculation, circuit breaker, adaptive retry budget, backpressure
manager and the retry orchestrators, together with proofs of their
specification properties.

Numbers that are IEEE doubles in the implementation are modelled as
rationals.  Calls to the ambient environment are made explicit: every
Math.random() draw is an argument (or a stream of draws indexed by attempt
number), and every Date.now() read is an argument (or a stream of
timestamps indexed by attempt number, the backoff sleep being what
advances the clock between attempts).  Asynchronous functions are
modelled as pure functions from the invocation index to an Except value:
invocation i of the operation fn yields fn i.
-/

namespace PoliteRetry

/-- Jitter strategies supported by calculateBackoff (src/backoff.ts). -/
inductive JitterStrategy where
  | none
  | full
  | equal
  | decorrelated
deriving DecidableEq

/-- Backoff delay computation, from calculateBackoff in src/backoff.ts.
The Math.random() draw of the implementation is passed in as the
argument r. -/
def calculateBackoff (attempt : ℕ) (initialDelayMs maxDelayMs multiplier : ℚ)
    (jitter : JitterStrategy) (previousDelay : Option ℚ) (r : ℚ) : ℚ :=
  let exponentialDelay := initialDelayMs * multiplier ^ attempt
  let cappedDelay := min exponentialDelay maxDelayMs
  match jitter with
  | .none => cappedDelay
  | .full => r * cappedDelay
  | .equal => cappedDelay / 2 + r * cappedDelay / 2
  | .decorrelated =>
    let prev := previousDelay.getD initialDelayMs
    min (r * (prev * 3 - initialDelayMs) + initialDelayMs) maxDelayMs

/-- Circuit breaker states (the CircuitState union type in src/types.ts):
closed, open and half-open. -/
inductive CircuitState where
  | closed
  | opened
  | halfOpen
deriving DecidableEq

/-- State of one CircuitBreaker instance (src/circuit-breaker.ts),
holding both the mutable fields and the readonly configuration. -/
structure CircuitBreaker where
  state : CircuitState
  failures : List Bool
  lastFailureTime : ℤ
  halfOpenAttempts : ℕ
  failureThreshold : ℚ
  windowSize : ℕ
  resetTimeoutMs : ℤ
deriving DecidableEq

/-- The trimWindow loop of src/circuit-breaker.ts: shift elements off the
front while the list is longer than the window size, which is the same as
dropping length - windowSize elements from the front. -/
def trimWindow (l : List Bool) (w : ℕ) : List Bool :=
  l.drop (l.length - w)

/-- getFailureRate of src/circuit-breaker.ts: fraction of true entries in
the window, 0 when the window is empty. -/
def CircuitBreaker.getFailureRate (cb : CircuitBreaker) : ℚ :=
  if cb.failures.length = 0 then 0
  else (cb.failures.count true : ℚ) / (cb.failures.length : ℚ)

/-- The private transition method: change state and reset the half-open
attempt counter only when the new state differs (the onStateChange
observer callback carries no state and is not modelled). -/
def CircuitBreaker.transition (cb : CircuitBreaker) (newState : CircuitState) : CircuitBreaker :=
  if cb.state ≠ newState then
    { cb with state := newState, halfOpenAttempts := 0 }
  else cb

/-- getState of src/circuit-breaker.ts: resolve a pending open to
half-open transition when the reset timeout has elapsed, then report the
state.  Date.now() is the argument now. -/
def CircuitBreaker.getState (cb : CircuitBreaker) (now : ℤ) : CircuitState × CircuitBreaker :=
  if cb.state = .opened then
    if cb.resetTimeoutMs ≤ now - cb.lastFailureTime then
      let cb1 := cb.transition .halfOpen
      (cb1.state, cb1)
    else (cb.state, cb)
  else (cb.state, cb)

/-- isAllowed of src/circuit-breaker.ts: closed passes, open rejects,
half-open increments the per-entry attempt counter and passes only the
first attempt. -/
def CircuitBreaker.isAllowed (cb : CircuitBreaker) (now : ℤ) : Bool × CircuitBreaker :=
  let s := cb.getState now
  if s.1 = .closed then (true, s.2)
  else if s.1 = .halfOpen then
    let cb2 : CircuitBreaker := { s.2 with halfOpenAttempts := s.2.halfOpenAttempts + 1 }
    (decide (cb2.halfOpenAttempts ≤ 1), cb2)
  else (false, s.2)

/-- recordSuccess of src/circuit-breaker.ts: append a non-failure, trim,
and on a half-open probe success transition to closed and clear the
window. -/
def CircuitBreaker.recordSuccess (cb : CircuitBreaker) : CircuitBreaker :=
  let cb1 : CircuitBreaker :=
    { cb with failures := trimWindow (cb.failures ++ [false]) cb.windowSize }
  if cb1.state = .halfOpen then
    let cb2 := cb1.transition .closed
    { cb2 with failures := [] }
  else cb1

/-- recordFailure of src/circuit-breaker.ts: append a failure, trim,
stamp the failure time; a half-open probe failure reopens the circuit,
and a closed circuit with a full window at or above the failure threshold
opens. -/
def CircuitBreaker.recordFailure (cb : CircuitBreaker) (now : ℤ) : CircuitBreaker :=
  let cb1 : CircuitBreaker :=
    { cb with failures := trimWindow (cb.failures ++ [true]) cb.windowSize,
              lastFailureTime := now }
  if cb1.state = .halfOpen then
    cb1.transition .opened
  else if cb1.state = .closed then
    if cb1.windowSize ≤ cb1.failures.length then
      if cb1.failureThreshold ≤ cb1.getFailureRate then
        cb1.transition .opened
      else cb1
    else cb1
  else cb1

/-- The reset method of src/circuit-breaker.ts. -/
def CircuitBreaker.resetBreaker (cb : CircuitBreaker) : CircuitBreaker :=
  let cb1 : CircuitBreaker := { cb with failures := [], halfOpenAttempts := 0 }
  cb1.transition .closed

/-- State of one AdaptiveRetryBudget instance (src/adaptive-budget.ts):
the mutable budget, failure-rate EMA and counters, together with the
readonly configuration.  The adjustment timer itself is not state; its
tick body adjustBudget is modelled below and the onBudgetChange callback
carries no state. -/
structure AdaptiveRetryBudget where
  budget : ℚ
  failureRate : ℚ
  totalRequests : ℕ
  successfulRequests : ℕ
  failedRequests : ℕ
  totalRetries : ℕ
  initialBudget : ℚ
  budgetIncreaseRate : ℚ
  budgetDecreaseRate : ℚ
  highFailureThreshold : ℚ
  lowFailureThreshold : ℚ
deriving DecidableEq

/-- The EMA smoothing factor, fixed at 0.1 in src/adaptive-budget.ts. -/
def emaAlpha : ℚ := 1 / 10

/-- The optional constructor arguments of AdaptiveRetryBudget. -/
structure AdaptiveRetryOptions where
  initialBudget : Option ℚ
  budgetIncreaseRate : Option ℚ
  budgetDecreaseRate : Option ℚ
  highFailureThreshold : Option ℚ
  lowFailureThreshold : Option ℚ
deriving DecidableEq

/-- The AdaptiveRetryBudget constructor with its documented defaults
(initialBudget 0.2, increase 0.1, decrease 0.5, thresholds 0.3 and 0.05);
the budget starts at the resolved initial budget. -/
def AdaptiveRetryBudget.create (o : AdaptiveRetryOptions) : AdaptiveRetryBudget :=
  { budget := o.initialBudget.getD (1 / 5)
    failureRate := 0
    totalRequests := 0
    successfulRequests := 0
    failedRequests := 0
    totalRetries := 0
    initialBudget := o.initialBudget.getD (1 / 5)
    budgetIncreaseRate := o.budgetIncreaseRate.getD (1 / 10)
    budgetDecreaseRate := o.budgetDecreaseRate.getD (1 / 2)
    highFailureThreshold := o.highFailureThreshold.getD (3 / 10)
    lowFailureThreshold := o.lowFailureThreshold.getD (1 / 20) }

/-- shouldRetrySync of src/adaptive-budget.ts.  The Math.random() draw is
the argument r; the returned pair is the boolean verdict together with
the updated state. -/
def AdaptiveRetryBudget.shouldRetrySync (b : AdaptiveRetryBudget) (r : ℚ) :
    Bool × AdaptiveRetryBudget :=
  if b.budget ≤ 0 then (false, b)
  else
    let retryProbability := min b.budget (1 - b.failureRate)
    if r < retryProbability then
      (true, { b with budget := max 0 (b.budget - 1 / 100),
                      totalRetries := b.totalRetries + 1 })
    else (false, b)

/-- shouldRetry of src/adaptive-budget.ts.  The backpressure argument is
the awaited result of the injected checkBackpressure callback, or no
value when no callback is configured; after that check the body is the
body of shouldRetrySync. -/
def AdaptiveRetryBudget.shouldRetry (b : AdaptiveRetryBudget) (backpressure : Option Bool)
    (r : ℚ) : Bool × AdaptiveRetryBudget :=
  if backpressure = some true then (false, b)
  else b.shouldRetrySync r

/-- recordOutcome of src/adaptive-budget.ts: bump the counters and fold
the outcome into the failure-rate EMA. -/
def AdaptiveRetryBudget.recordOutcome (b : AdaptiveRetryBudget) (success : Bool) :
    AdaptiveRetryBudget :=
  let b1 : AdaptiveRetryBudget :=
    if success then
      { b with totalRequests := b.totalRequests + 1,
               successfulRequests := b.successfulRequests + 1 }
    else
      { b with totalRequests := b.totalRequests + 1,
               failedRequests := b.failedRequests + 1 }
  let failed : ℚ := if success then 0 else 1
  { b1 with failureRate := (1 - emaAlpha) * b1.failureRate + emaAlpha * failed }

/-- The adjustBudget tick body of src/adaptive-budget.ts: multiplicative
decrease above the high failure threshold, additive increase capped at
the initial budget below the low threshold (the onBudgetChange callback
fires on a large enough change but carries no state). -/
def AdaptiveRetryBudget.adjustBudget (b : AdaptiveRetryBudget) : AdaptiveRetryBudget :=
  if b.highFailureThreshold < b.failureRate then
    { b with budget := b.budget * (1 - b.budgetDecreaseRate) }
  else if b.failureRate < b.lowFailureThreshold then
    { b with budget := min b.initialBudget (b.budget + b.budgetIncreaseRate) }
  else b

/-- The reset method of src/adaptive-budget.ts: restore the budget to the
initial budget and zero the rate and counters. -/
def AdaptiveRetryBudget.resetBudget (b : AdaptiveRetryBudget) : AdaptiveRetryBudget :=
  { b with budget := b.initialBudget
           failureRate := 0
           totalRequests := 0
           successfulRequests := 0
           failedRequests := 0
           totalRetries := 0 }

/-- A backpressure signal as stored by the BackpressureManager
(src/backpressure.ts).  A numeric field is doubly optional: the outer
level distinguishes an absent value (undefined), the inner level
distinguishes a present but non-numeric value (NaN, which compares false
against every threshold). -/
structure BackpressureSignal where
  isOverloaded : Bool
  loadLevel : Option (Option ℚ)
  retryAfterMs : Option (Option ℚ)
  timestamp : ℤ
deriving DecidableEq

/-- State of one BackpressureManager instance: the per-service signal
map and the readonly configuration. -/
structure BackpressureManager where
  signals : String → Option BackpressureSignal
  signalTtlMs : ℤ
  overloadThreshold : ℚ

/-- The results of the three header lookups performed by
recordFromHeaders: the raw string values of X-Backpressure, Retry-After
and X-Load-Shedding, or no value when the header is absent. -/
structure RawHeaders where
  loadLevel : Option String
  retryAfter : Option String
  shedding : Option String
deriving DecidableEq

/-- The idiom loadLevelStr ? parseFloat(loadLevelStr) : undefined of
recordFromHeaders: an absent header or the falsy empty string yields
undefined, anything else is parsed (pf models the ambient parseFloat, a
result of no value modelling NaN). -/
def parsedHeader (pf : String → Option ℚ) (s : Option String) : Option (Option ℚ) :=
  match s with
  | some str => if str = "" then none else some (pf str)
  | none => none

/-- recordSignal of src/backpressure.ts: overwrite the signal for the
service id, stamping the arrival time. -/
def BackpressureManager.recordSignal (m : BackpressureManager) (serviceId : String)
    (isOverloaded : Bool) (loadLevel retryAfterMs : Option (Option ℚ)) (now : ℤ) :
    BackpressureManager :=
  { m with signals := fun k =>
      if k = serviceId then
        some ⟨isOverloaded, loadLevel, retryAfterMs, now⟩
      else m.signals k }

/-- recordFromHeaders of src/backpressure.ts: parse the three recognized
headers, record a signal only when the load level or retry-after parsed
to a defined value or the shedding flag parsed truthy, and compute
isOverloaded as shedding OR a defined numeric load level at or above the
overload threshold. -/
def BackpressureManager.recordFromHeaders (m : BackpressureManager) (pf : String → Option ℚ)
    (serviceId : String) (h : RawHeaders) (now : ℤ) : BackpressureManager :=
  let loadLevel := parsedHeader pf h.loadLevel
  let retryAfterMs := (parsedHeader pf h.retryAfter).map (Option.map (· * 1000))
  let isShedding : Bool := h.shedding = some "true" || h.shedding = some "1"
  if loadLevel.isSome || retryAfterMs.isSome || isShedding then
    let overloadedByLoad : Bool :=
      match loadLevel with
      | some (some x) => decide (m.overloadThreshold ≤ x)
      | _ => false
    m.recordSignal serviceId (isShedding || overloadedByLoad) loadLevel retryAfterMs now
  else m

/-- getSignal of src/backpressure.ts: return the stored signal only while
its age is within the ttl, evicting an expired one. -/
def BackpressureManager.getSignal (m : BackpressureManager) (serviceId : String) (now : ℤ) :
    Option BackpressureSignal × BackpressureManager :=
  match m.signals serviceId with
  | none => (none, m)
  | some sig =>
    if m.signalTtlMs < now - sig.timestamp then
      (none, { m with signals := fun k => if k = serviceId then none else m.signals k })
    else (some sig, m)

/-- The default retry predicate of src/retry.ts: retry on any error. -/
def defaultRetryIf {E : Type} : E → Bool := fun _ => true

/-- The attempt loop of the retry function in src/retry.ts, with the
invocation count instrumented.  The first argument is the remaining
retry quota (maxRetries - attempt), so the loop at attempt number a with
quota q covers attempts a through a + q; the result pairs the outcome
(the returned value or the raised error) with the number of invocations
of fn performed from this point on.  Backoff sleeping and the onRetry
callback do not affect the outcome and are not modelled here. -/
def retryCore {E T : Type} (fn : ℕ → Except E T) (retryIf : E → Bool) :
    ℕ → ℕ → Except E T × ℕ
  | fuel, attempt =>
    match fn attempt with
    | .ok v => (.ok v, 1)
    | .error e =>
      match fuel with
      | 0 => (.error e, 1)
      | f + 1 =>
        if retryIf e then
          let r := retryCore fn retryIf f (attempt + 1)
          (r.1, r.2 + 1)
        else (.error e, 1)

/-- The retry function of src/retry.ts: run the attempt loop from
attempt 0 with maxRetries retries available.  The result pairs the
outcome with the total number of invocations of fn. -/
def retry {E T : Type} (fn : ℕ → Except E T) (retryIf : E → Bool) (maxRetries : ℕ) :
    Except E T × ℕ :=
  retryCore fn retryIf maxRetries 0

/-- The RetryResult record of src/types.ts (the elapsed-time field
totalTimeMs is wall-clock time and is not modelled). -/
structure RetryResult (E T : Type) where
  result : Option T
  error : Option E
  success : Bool
  attempts : ℕ
deriving DecidableEq

/-- retryWithResult of src/retry.ts: run retry on the wrapped,
attempt-counting operation and convert the outcome into a RetryResult
record instead of re-raising. -/
def retryWithResult {E T : Type} (fn : ℕ → Except E T) (retryIf : E → Bool)
    (maxRetries : ℕ) : RetryResult E T :=
  match retry fn retryIf maxRetries with
  | (.ok v, n) => ⟨some v, none, true, n⟩
  | (.error e, n) => ⟨none, some e, false, n⟩

/-- Errors surfaced by the orchestrators with an attached circuit
breaker: either the operation's own error or a CircuitOpenError with its
message string. -/
inductive RetryError (E : Type) where
  | op : E → RetryError E
  | circuitOpen : String → RetryError E
deriving DecidableEq

/-- Boolean success test for an Except outcome. -/
def exceptOk {E T : Type} : Except E T → Bool
  | .ok _ => true
  | .error _ => false

/-- Observable outcome of one retryWithCircuitBreaker call: the result,
the final breaker state, the number of invocations of fn and the number
of recordFailure and recordSuccess calls made on the breaker. -/
structure CBRun (E T : Type) where
  result : Except (RetryError E) T
  breaker : CircuitBreaker
  calls : ℕ
  failRecords : ℕ
  succRecords : ℕ

/-- The retry loop as instantiated by retryWithCircuitBreaker in
src/retry.ts: the retry function runs with the composed retryIf closure
that first calls recordFailure, then returns false if the breaker no
longer allows requests, and otherwise defers to the caller's predicate;
a false answer makes retry re-raise the last operation error, which the
outer catch then answers with one more recordFailure before re-raising.
The first argument is the remaining retry quota; recordFailure and
recordSuccess calls on the breaker are counted. -/
def retryWithCBLoop {E T : Type} (fn : ℕ → Except E T) (retryIf : E → Bool)
    (clock : ℕ → ℤ) : ℕ → ℕ → CircuitBreaker → CBRun E T
  | fuel, attempt, cb =>
    match fn attempt with
    | .ok v => ⟨.ok v, cb.recordSuccess, 1, 0, 1⟩
    | .error e =>
      match fuel with
      | 0 => ⟨.error (.op e), cb.recordFailure (clock attempt), 1, 1, 0⟩
      | f + 1 =>
        let cb1 := cb.recordFailure (clock attempt)
        let a := cb1.isAllowed (clock attempt)
        if a.1 = false then
          ⟨.error (.op e), (a.2).recordFailure (clock attempt), 1, 2, 0⟩
        else if retryIf e = false then
          ⟨.error (.op e), (a.2).recordFailure (clock attempt), 1, 2, 0⟩
        else
          let r := retryWithCBLoop fn retryIf clock f (attempt + 1) a.2
          ⟨r.result, r.breaker, r.calls + 1, r.failRecords + 1, r.succRecords⟩

/-- retryWithCircuitBreaker of src/retry.ts: a pre-flight isAllowed
check that raises CircuitOpenError with its default message, then the
instrumented loop; on overall success recordSuccess is called once. -/
def retryWithCircuitBreaker {E T : Type} (fn : ℕ → Except E T) (retryIf : E → Bool)
    (maxRetries : ℕ) (cb : CircuitBreaker) (clock : ℕ → ℤ) : CBRun E T :=
  let pre := cb.isAllowed (clock 0)
  if pre.1 = false then
    ⟨.error (.circuitOpen "Circuit breaker is open"), pre.2, 0, 0, 0⟩
  else retryWithCBLoop fn retryIf clock maxRetries 0 pre.2

/-- Observable outcome of one retryWithProtection call: the result, the
final breaker and budget states, the number of invocations of fn and the
number of recordFailure and recordSuccess calls made on the breaker. -/
structure ProtectionRun (E T : Type) where
  result : Except (RetryError E) T
  breaker : CircuitBreaker
  budget : AdaptiveRetryBudget
  calls : ℕ
  failRecords : ℕ
  succRecords : ℕ

/-- The attempt loop of retryWithProtection in src/retry.ts: on failure
record the failure on the breaker and the budget, give up when the quota
is exhausted or the predicate rejects, raise CircuitOpenError when the
breaker stopped allowing requests, re-raise the last error when the
budget denies the retry, and otherwise back off and continue.  The first
argument is the remaining retry quota; rand and backpressure supply the
Math.random() draw and the awaited backpressure check per attempt. -/
def retryWithProtectionLoop {E T : Type} (fn : ℕ → Except E T) (retryIf : E → Bool)
    (clock : ℕ → ℤ) (rand : ℕ → ℚ) (backpressure : ℕ → Option Bool) :
    ℕ → ℕ → CircuitBreaker → AdaptiveRetryBudget → ProtectionRun E T
  | fuel, attempt, cb, b =>
    match fn attempt with
    | .ok v => ⟨.ok v, cb.recordSuccess, b.recordOutcome true, 1, 0, 1⟩
    | .error e =>
      let cb1 := cb.recordFailure (clock attempt)
      let b1 := b.recordOutcome false
      match fuel with
      | 0 => ⟨.error (.op e), cb1, b1, 1, 1, 0⟩
      | f + 1 =>
        if retryIf e = false then ⟨.error (.op e), cb1, b1, 1, 1, 0⟩
        else
          let a := cb1.isAllowed (clock attempt)
          if a.1 = false then
            ⟨.error (.circuitOpen "Circuit opened during retry sequence"), a.2, b1, 1, 1, 0⟩
          else
            let s := b1.shouldRetry (backpressure attempt) (rand attempt)
            if s.1 = false then ⟨.error (.op e), a.2, s.2, 1, 1, 0⟩
            else
              let r := retryWithProtectionLoop fn retryIf clock rand backpressure
                  f (attempt + 1) a.2 s.2
              ⟨r.result, r.breaker, r.budget, r.calls + 1, r.failRecords + 1, r.succRecords⟩

/-- retryWithProtection of src/retry.ts: a pre-flight isAllowed check
that raises CircuitOpenError with its default message, then the
instrumented loop. -/
def retryWithProtection {E T : Type} (fn : ℕ → Except E T) (retryIf : E → Bool)
    (maxRetries : ℕ) (cb : CircuitBreaker) (b : AdaptiveRetryBudget)
    (clock : ℕ → ℤ) (rand : ℕ → ℚ) (backpressure : ℕ → Option Bool) : ProtectionRun E T :=
  let pre := cb.isAllowed (clock 0)
  if pre.1 = false then
    ⟨.error (.circuitOpen "Circuit breaker is open"), pre.2, b, 0, 0, 0⟩
  else retryWithProtectionLoop fn retryIf clock rand backpressure maxRetries 0 pre.2 b

/-! Branch lemmas for the circuit breaker operations. -/

theorem transition_of_ne (cb : CircuitBreaker) (s : CircuitState) (h : cb.state ≠ s) :
    cb.transition s = { cb with state := s, halfOpenAttempts := 0 } := by
  rw [CircuitBreaker.transition, if_pos h]

theorem transition_of_eq (cb : CircuitBreaker) (s : CircuitState) (h : cb.state = s) :
    cb.transition s = cb := by
  rw [CircuitBreaker.transition, if_neg (by simp [h])]

theorem getState_of_closed (cb : CircuitBreaker) (now : ℤ) (h : cb.state = .closed) :
    cb.getState now = (.closed, cb) := by
  simp [CircuitBreaker.getState, h]

theorem getState_of_halfOpen (cb : CircuitBreaker) (now : ℤ) (h : cb.state = .halfOpen) :
    cb.getState now = (.halfOpen, cb) := by
  simp [CircuitBreaker.getState, h]

theorem getState_of_opened_recent (cb : CircuitBreaker) (now : ℤ) (h : cb.state = .opened)
    (ht : now - cb.lastFailureTime < cb.resetTimeoutMs) :
    cb.getState now = (.opened, cb) := by
  simp [CircuitBreaker.getState, h, not_le.2 ht]

theorem getState_of_opened_elapsed (cb : CircuitBreaker) (now : ℤ) (h : cb.state = .opened)
    (ht : cb.resetTimeoutMs ≤ now - cb.lastFailureTime) :
    cb.getState now = (.halfOpen, { cb with state := .halfOpen, halfOpenAttempts := 0 }) := by
  rw [CircuitBreaker.getState, if_pos h, if_pos ht,
    transition_of_ne cb .halfOpen (by rw [h]; simp)]

theorem isAllowed_of_closed (cb : CircuitBreaker) (now : ℤ) (h : cb.state = .closed) :
    cb.isAllowed now = (true, cb) := by
  rw [CircuitBreaker.isAllowed]
  simp [getState_of_closed cb now h]

theorem isAllowed_of_opened_recent (cb : CircuitBreaker) (now : ℤ) (h : cb.state = .opened)
    (ht : now - cb.lastFailureTime < cb.resetTimeoutMs) :
    cb.isAllowed now = (false, cb) := by
  rw [CircuitBreaker.isAllowed]
  simp [getState_of_opened_recent cb now h ht]

theorem isAllowed_of_opened_elapsed (cb : CircuitBreaker) (now : ℤ) (h : cb.state = .opened)
    (ht : cb.resetTimeoutMs ≤ now - cb.lastFailureTime) :
    cb.isAllowed now = (true, { cb with state := .halfOpen, halfOpenAttempts := 1 }) := by
  rw [CircuitBreaker.isAllowed]
  simp [getState_of_opened_elapsed cb now h ht]

theorem isAllowed_of_halfOpen (cb : CircuitBreaker) (now : ℤ) (h : cb.state = .halfOpen) :
    cb.isAllowed now = (decide (cb.halfOpenAttempts + 1 ≤ 1),
      { cb with halfOpenAttempts := cb.halfOpenAttempts + 1 }) := by
  rw [CircuitBreaker.isAllowed]
  simp [getState_of_halfOpen cb now h]

/-- Claim C6: isAllowed first resolves a pending time-based transition
(Open with the reset timeout elapsed becomes HalfOpen), then returns true
in Closed, false in Open, and in HalfOpen returns true for exactly the
first call since entering HalfOpen (the per-entry counter, which every
state transition resets to 0, has been bumped to 1) and false for every
subsequent call. -/
theorem isAllowed_spec (cb : CircuitBreaker) (now : ℤ) :
    (cb.state = .closed → cb.isAllowed now = (true, cb)) ∧
    (cb.state = .opened → now - cb.lastFailureTime < cb.resetTimeoutMs →
      cb.isAllowed now = (false, cb)) ∧
    (cb.state = .opened → cb.resetTimeoutMs ≤ now - cb.lastFailureTime →
      cb.isAllowed now = (true, { cb with state := .halfOpen, halfOpenAttempts := 1 })) ∧
    (cb.state = .halfOpen → cb.halfOpenAttempts = 0 →
      cb.isAllowed now = (true, { cb with halfOpenAttempts := 1 })) ∧
    (cb.state = .halfOpen → 1 ≤ cb.halfOpenAttempts →
      (cb.isAllowed now).1 = false ∧
      (cb.isAllowed now).2 = { cb with halfOpenAttempts := cb.halfOpenAttempts + 1 }) ∧
    (∀ s, s ≠ cb.state → (cb.transition s).halfOpenAttempts = 0) := by
  refine ⟨fun h => isAllowed_of_closed cb now h,
    fun h ht => isAllowed_of_opened_recent cb now h ht,
    fun h ht => isAllowed_of_opened_elapsed cb now h ht,
    fun h h0 => ?_, fun h h1 => ?_, fun s hs => ?_⟩
  · rw [isAllowed_of_halfOpen cb now h, h0]
    norm_num
  · rw [isAllowed_of_halfOpen cb now h]
    refine ⟨?_, rfl⟩
    simpa using by omega
  · rw [transition_of_ne cb s (fun hh => hs hh.symm)]

/-- Witness for claim C6 at a concrete closed breaker. -/
theorem isAllowed_spec_witness :
    (⟨.closed, [], 0, 0, 1 / 2, 10, 30000⟩ : CircuitBreaker).isAllowed 0
      = (true, ⟨.closed, [], 0, 0, 1 / 2, 10, 30000⟩) :=
  (isAllowed_spec ⟨.closed, [], 0, 0, 1 / 2, 10, 30000⟩ 0).1 rfl

/-! Branch lemmas for the adaptive retry budget operations. -/

theorem shouldRetrySync_of_nonpos (b : AdaptiveRetryBudget) (r : ℚ) (h : b.budget ≤ 0) :
    b.shouldRetrySync r = (false, b) := by
  simp only [AdaptiveRetryBudget.shouldRetrySync]
  rw [if_pos h]

theorem shouldRetrySync_of_accept (b : AdaptiveRetryBudget) (r : ℚ) (h : ¬ b.budget ≤ 0)
    (hr : r < min b.budget (1 - b.failureRate)) :
    b.shouldRetrySync r =
      (true, { b with budget := max 0 (b.budget - 1 / 100), totalRetries := b.totalRetries + 1 }) := by
  simp only [AdaptiveRetryBudget.shouldRetrySync]
  rw [if_neg h, if_pos hr]

theorem shouldRetrySync_of_deny (b : AdaptiveRetryBudget) (r : ℚ) (h : ¬ b.budget ≤ 0)
    (hr : ¬ r < min b.budget (1 - b.failureRate)) :
    b.shouldRetrySync r = (false, b) := by
  simp only [AdaptiveRetryBudget.shouldRetrySync]
  rw [if_neg h, if_neg hr]

/-- Claim C5: with a non-positive budget neither shouldRetry nor
shouldRetrySync admits a retry, whatever the random draw, the
failure-rate EMA and the backpressure answer. -/
theorem shouldRetry_denies_on_exhausted_budget (b : AdaptiveRetryBudget)
    (backpressure : Option Bool) (r : ℚ) (h : b.budget ≤ 0) :
    (b.shouldRetrySync r).1 = false ∧ (b.shouldRetry backpressure r).1 = false := by
  have hs := shouldRetrySync_of_nonpos b r h
  refine ⟨by rw [hs], ?_⟩
  simp only [AdaptiveRetryBudget.shouldRetry]
  split_ifs <;> simp [hs]

/-- Witness for claim C5 at a concrete budget state whose budget is 0. -/
theorem shouldRetry_denies_on_exhausted_budget_witness :
    ((⟨0, 0, 0, 0, 0, 0, 1 / 5, 1 / 10, 1 / 2, 3 / 10, 1 / 20⟩ :
        AdaptiveRetryBudget).budget ≤ 0) ∧
    ((⟨0, 0, 0, 0, 0, 0, 1 / 5, 1 / 10, 1 / 2, 3 / 10, 1 / 20⟩ :
        AdaptiveRetryBudget).shouldRetrySync (1 / 2)).1 = false :=
  ⟨le_refl 0,
    (shouldRetry_denies_on_exhausted_budget _ none (1 / 2) (le_refl 0)).1⟩

/-- Claim C10: shouldRetrySync and shouldRetry mutate the state exactly
when they answer true, and then the whole mutation is the 0.01 budget
debit (floored at 0) plus the totalRetries increment; a false answer
leaves every field unchanged. -/
theorem shouldRetry_frame (b : AdaptiveRetryBudget) (backpressure : Option Bool) (r : ℚ) :
    ((b.shouldRetrySync r).2 =
      if (b.shouldRetrySync r).1 = true then
        { b with budget := max 0 (b.budget - 1 / 100), totalRetries := b.totalRetries + 1 }
      else b) ∧
    ((b.shouldRetry backpressure r).2 =
      if (b.shouldRetry backpressure r).1 = true then
        { b with budget := max 0 (b.budget - 1 / 100), totalRetries := b.totalRetries + 1 }
      else b) := by
  have key : (b.shouldRetrySync r).2 =
      if (b.shouldRetrySync r).1 = true then
        { b with budget := max 0 (b.budget - 1 / 100), totalRetries := b.totalRetries + 1 }
      else b := by
    by_cases hb : b.budget ≤ 0
    · rw [shouldRetrySync_of_nonpos b r hb]; simp
    · by_cases hr : r < min b.budget (1 - b.failureRate)
      · rw [shouldRetrySync_of_accept b r hb hr]; simp
      · rw [shouldRetrySync_of_deny b r hb hr]; simp
  refine ⟨key, ?_⟩
  simp only [AdaptiveRetryBudget.shouldRetry]
  by_cases hbp : backpressure = some true
  · simp [hbp]
  · simp only [if_neg hbp]
    exact key

/-- Claim C4: under the documented configuration ranges (a non-negative
initial budget and increase rate, a decrease rate in the unit interval)
every operation keeps the budget inside the interval from 0 to the
initial budget: the constructor starts it there, the shouldRetry debits
floor it at 0, the periodic adjustment caps growth at the initial budget
and cannot make it negative, and reset restores it to the initial
budget. -/
theorem budget_stays_in_bounds (o : AdaptiveRetryOptions) (b : AdaptiveRetryBudget)
    (r : ℚ) (backpressure : Option Bool) (success : Bool)
    (hinit : 0 ≤ b.initialBudget) (hinc : 0 ≤ b.budgetIncreaseRate)
    (hdec0 : 0 ≤ b.budgetDecreaseRate) (hdec1 : b.budgetDecreaseRate ≤ 1)
    (hb0 : 0 ≤ b.budget) (hb1 : b.budget ≤ b.initialBudget) :
    ((AdaptiveRetryBudget.create o).budget = (AdaptiveRetryBudget.create o).initialBudget) ∧
    (0 ≤ (b.shouldRetrySync r).2.budget ∧
      (b.shouldRetrySync r).2.budget ≤ (b.shouldRetrySync r).2.initialBudget) ∧
    (0 ≤ (b.shouldRetry backpressure r).2.budget ∧
      (b.shouldRetry backpressure r).2.budget ≤ (b.shouldRetry backpressure r).2.initialBudget) ∧
    (0 ≤ b.adjustBudget.budget ∧ b.adjustBudget.budget ≤ b.adjustBudget.initialBudget) ∧
    (0 ≤ (b.recordOutcome success).budget ∧
      (b.recordOutcome success).budget ≤ (b.recordOutcome success).initialBudget) ∧
    (b.resetBudget.budget = b.resetBudget.initialBudget ∧
      0 ≤ b.resetBudget.budget ∧ b.resetBudget.budget ≤ b.resetBudget.initialBudget) := by
  have syncBound : 0 ≤ (b.shouldRetrySync r).2.budget ∧
      (b.shouldRetrySync r).2.budget ≤ (b.shouldRetrySync r).2.initialBudget := by
    by_cases hb : b.budget ≤ 0
    · rw [shouldRetrySync_of_nonpos b r hb]; exact ⟨hb0, hb1⟩
    · by_cases hr : r < min b.budget (1 - b.failureRate)
      · rw [shouldRetrySync_of_accept b r hb hr]
        refine ⟨le_max_left 0 _, ?_⟩
        simp only
        exact max_le hinit (by linarith)
      · rw [shouldRetrySync_of_deny b r hb hr]; exact ⟨hb0, hb1⟩
  refine ⟨rfl, syncBound, ?_, ?_, ?_, rfl, hinit, le_refl _⟩
  · simp only [AdaptiveRetryBudget.shouldRetry]
    split_ifs with hbp
    · exact ⟨hb0, hb1⟩
    · exact syncBound
  · simp only [AdaptiveRetryBudget.adjustBudget]
    split_ifs with h1 h2
    · constructor
      · exact mul_nonneg hb0 (by linarith)
      · simp only
        have hstep : b.budget * (1 - b.budgetDecreaseRate) ≤ b.budget := by nlinarith
        exact le_trans hstep hb1
    · exact ⟨le_min hinit (by linarith), min_le_left _ _⟩
    · exact ⟨hb0, hb1⟩
  · simp only [AdaptiveRetryBudget.recordOutcome]
    split_ifs <;> exact ⟨hb0, hb1⟩

/-- Witness for claim C4 at the default configuration. -/
theorem budget_stays_in_bounds_witness :
    (0 : ℚ) ≤ (1 / 5 : ℚ) ∧
    (0 ≤ ((⟨1 / 5, 0, 0, 0, 0, 0, 1 / 5, 1 / 10, 1 / 2, 3 / 10, 1 / 20⟩ :
        AdaptiveRetryBudget).shouldRetrySync 0).2.budget ∧
      ((⟨1 / 5, 0, 0, 0, 0, 0, 1 / 5, 1 / 10, 1 / 2, 3 / 10, 1 / 20⟩ :
        AdaptiveRetryBudget).shouldRetrySync 0).2.budget ≤
        ((⟨1 / 5, 0, 0, 0, 0, 0, 1 / 5, 1 / 10, 1 / 2, 3 / 10, 1 / 20⟩ :
        AdaptiveRetryBudget).shouldRetrySync 0).2.initialBudget) :=
  ⟨by norm_num,
    (budget_stays_in_bounds ⟨none, none, none, none, none⟩
      ⟨1 / 5, 0, 0, 0, 0, 0, 1 / 5, 1 / 10, 1 / 2, 3 / 10, 1 / 20⟩
      0 none true (by norm_num) (by norm_num) (by norm_num) (by norm_num)
      (by norm_num) (by norm_num)).2.1⟩

/-- Claim C8: with decorrelated jitter and a supplied previous delay the
computed delay equals min(initialDelay + r * (3 * previousDelay - initialDelay), maxDelay),
and before the cap this is a value between initialDelay and
3 * previousDelay when the draw lies in [0, 1) and 3 * previousDelay is
at least initialDelay. -/
theorem decorrelated_backoff (attempt : ℕ) (initialDelayMs maxDelayMs multiplier p r : ℚ)
    (h0 : 0 ≤ r) (h1 : r < 1) (h3 : initialDelayMs ≤ 3 * p) :
    calculateBackoff attempt initialDelayMs maxDelayMs multiplier .decorrelated (some p) r
        = min (initialDelayMs + r * (3 * p - initialDelayMs)) maxDelayMs ∧
    initialDelayMs ≤ initialDelayMs + r * (3 * p - initialDelayMs) ∧
    initialDelayMs + r * (3 * p - initialDelayMs) ≤ 3 * p := by
  refine ⟨?_, ?_, ?_⟩
  · simp only [calculateBackoff, Option.getD]
    congr 1
    ring
  · nlinarith [mul_nonneg h0 (sub_nonneg.mpr h3)]
  · nlinarith [mul_nonneg (sub_nonneg.mpr (le_of_lt h1)) (sub_nonneg.mpr h3)]

/-- Witness for claim C8 at concrete delays and draw. -/
theorem decorrelated_backoff_witness :
    calculateBackoff 0 (50 : ℚ) 1000 2 .decorrelated (some 100) (1 / 2)
        = min ((50 : ℚ) + 1 / 2 * (3 * 100 - 50)) 1000 ∧
    (50 : ℚ) ≤ 50 + 1 / 2 * (3 * 100 - 50) ∧
    (50 : ℚ) + 1 / 2 * (3 * 100 - 50) ≤ 3 * 100 :=
  decorrelated_backoff 0 50 1000 2 100 (1 / 2) (by norm_num) (by norm_num) (by norm_num)

/-! Step lemmas for the retry attempt loop. -/

theorem retryCore_ok {E T : Type} (fn : ℕ → Except E T) (p : E → Bool) (fuel attempt : ℕ)
    (v : T) (h : fn attempt = .ok v) :
    retryCore fn p fuel attempt = (.ok v, 1) := by
  cases fuel <;> simp [retryCore, h]

theorem retryCore_error_zero {E T : Type} (fn : ℕ → Except E T) (p : E → Bool) (attempt : ℕ)
    (e : E) (h : fn attempt = .error e) :
    retryCore fn p 0 attempt = (.error e, 1) := by
  simp [retryCore, h]

theorem retryCore_error_retry {E T : Type} (fn : ℕ → Except E T) (p : E → Bool)
    (f attempt : ℕ) (e : E) (h : fn attempt = .error e) (hp : p e = true) :
    retryCore fn p (f + 1) attempt =
      ((retryCore fn p f (attempt + 1)).1, (retryCore fn p f (attempt + 1)).2 + 1) := by
  conv_lhs => rw [retryCore]
  simp [h, hp]

theorem retryCore_error_stop {E T : Type} (fn : ℕ → Except E T) (p : E → Bool)
    (f attempt : ℕ) (e : E) (h : fn attempt = .error e) (hp : p e = false) :
    retryCore fn p (f + 1) attempt = (.error e, 1) := by
  simp [retryCore, h, hp]

/-- When the operation succeeds for the first time at relative attempt k
within the remaining quota, the loop stops there with k + 1 invocations,
provided the predicate accepts every error. -/
theorem retryCore_ok_after {E T : Type} (fn : ℕ → Except E T) (p : E → Bool) (v : T)
    (hp : ∀ e, p e = true) :
    ∀ (k fuel attempt : ℕ), k ≤ fuel →
      (∀ i, i < k → exceptOk (fn (attempt + i)) = false) →
      fn (attempt + k) = .ok v →
      retryCore fn p fuel attempt = (.ok v, k + 1) := by
  intro k
  induction k with
  | zero =>
    intro fuel attempt _ _ hok
    exact retryCore_ok fn p fuel attempt v (by simpa using hok)
  | succ k ih =>
    intro fuel attempt hk hfail hok
    obtain ⟨f, rfl⟩ : ∃ f, fuel = f + 1 := ⟨fuel - 1, by omega⟩
    have h0 : exceptOk (fn attempt) = false := by simpa using hfail 0 (by omega)
    obtain ⟨e, he⟩ : ∃ e, fn attempt = .error e := by
      cases hfn : fn attempt with
      | ok w => rw [hfn] at h0; simp [exceptOk] at h0
      | error e => exact ⟨e, rfl⟩
    rw [retryCore_error_retry fn p f attempt e he (hp e)]
    have hrec := ih f (attempt + 1) (by omega)
      (fun i hi => by
        have h1 : attempt + 1 + i = attempt + (i + 1) := by omega
        rw [h1]
        exact hfail (i + 1) (by omega))
      (by
        have h2 : attempt + 1 + k = attempt + (k + 1) := by omega
        rw [h2]
        exact hok)
    rw [hrec]

/-- When the operation fails at every invocation and the predicate
accepts every error, the loop exhausts its quota, makes fuel + 1
invocations and surfaces the error of the last one. -/
theorem retryCore_all_fail {E T : Type} (fn : ℕ → Except E T) (p : E → Bool) (es : ℕ → E)
    (hp : ∀ e, p e = true) (h : ∀ i, fn i = .error (es i)) :
    ∀ fuel attempt,
      retryCore fn p fuel attempt = (.error (es (attempt + fuel)), fuel + 1) := by
  intro fuel
  induction fuel with
  | zero =>
    intro attempt
    rw [retryCore_error_zero fn p attempt (es attempt) (h attempt)]
    simp
  | succ f ih =>
    intro attempt
    rw [retryCore_error_retry fn p f attempt (es attempt) (h attempt) (hp _), ih (attempt + 1)]
    have h1 : attempt + 1 + f = attempt + (f + 1) := by omega
    rw [h1]

/-- Claim C3: with the default retry predicate, an operation failing on
its first k invocations (k at most maxRetries) and succeeding on
invocation k + 1 makes retry return the success value after exactly
k + 1 invocations, and an operation failing on every invocation makes
retry raise the error of its final invocation after exactly
maxRetries + 1 invocations. -/
theorem retry_attempt_semantics {E T : Type} (fn : ℕ → Except E T) (es : ℕ → E) (v : T)
    (k maxRetries : ℕ) :
    (k < maxRetries + 1 →
      (∀ i, i < k → exceptOk (fn i) = false) →
      fn k = .ok v →
      retry fn defaultRetryIf maxRetries = (.ok v, k + 1)) ∧
    ((∀ i, fn i = .error (es i)) →
      retry fn defaultRetryIf maxRetries = (.error (es maxRetries), maxRetries + 1)) := by
  constructor
  · intro hk hfail hok
    simp only [retry]
    exact retryCore_ok_after fn defaultRetryIf v (fun _ => rfl) k maxRetries 0 (by omega)
      (fun i hi => by simpa using hfail i hi) (by simpa using hok)
  · intro h
    simp only [retry]
    have := retryCore_all_fail fn defaultRetryIf es (fun _ => rfl) h maxRetries 0
    simpa using this

/-- Witness for claim C3: an operation failing twice then succeeding is
invoked three times under maxRetries = 3 and returns the success
value. -/
theorem retry_attempt_semantics_witness :
    retry (fun i => if i < 2 then .error i else .ok 42) defaultRetryIf 3 = (.ok 42, 3) :=
  (retry_attempt_semantics (fun i => if i < 2 then .error i else .ok 42)
      (fun i => i) 42 2 3).1 (by omega)
    (fun i hi => by interval_cases i <;> rfl) rfl

/-- Counterexample to claim C7 as stated: quantified over every option
record, the attempts field of a permanent failure need not be
maxRetries + 1, since a rejecting retry predicate stops the loop after
one invocation (here maxRetries = 1 but attempts = 1). -/
theorem retryWithResult_attempts_counterexample :
    (retryWithResult (fun _ => .error 0) (fun _ => false) 1 : RetryResult ℕ ℕ)
        = ⟨none, some 0, false, 1⟩ ∧
    (1 : ℕ) ≠ 1 + 1 := by
  constructor
  · rfl
  · omega

/-- Claim C7 (amended): retryWithResult is a total function that raises
nothing by construction, and on an operation failing at every invocation
whose errors the retry predicate accepts (as the default predicate does),
it returns a record with success = false, attempts = maxRetries + 1 and
error the final invocation's error. -/
theorem retryWithResult_permanent_failure {E T : Type} (fn : ℕ → Except E T) (es : ℕ → E)
    (retryIf : E → Bool) (maxRetries : ℕ)
    (hfail : ∀ i, fn i = .error (es i)) (hp : ∀ e, retryIf e = true) :
    retryWithResult fn retryIf maxRetries
      = ⟨none, some (es maxRetries), false, maxRetries + 1⟩ := by
  have h := retryCore_all_fail fn retryIf es hp hfail maxRetries 0
  simp only [retryWithResult, retry]
  rw [h]
  simp

/-- Witness for the amended claim C7 at a concrete permanently failing
operation. -/
theorem retryWithResult_permanent_failure_witness :
    (retryWithResult (fun i => .error i) (fun _ => true) 2 : RetryResult ℕ ℕ)
      = ⟨none, some 2, false, 3⟩ :=
  retryWithResult_permanent_failure (fun i => .error i) (fun i => i) (fun _ => true) 2
    (fun _ => rfl) (fun _ => rfl)

/-! Backpressure header recording. -/

/-- A header counts as supplying a value when it is present with a
non-empty string (string truthiness in the implementation's guard). -/
def headerSupplied (s : Option String) : Bool :=
  match s with
  | some str => decide (str ≠ "")
  | none => false

/-- The shedding header parses truthy exactly on the strings true and 1. -/
def sheddingTruthy (s : Option String) : Bool :=
  s = some "true" || s = some "1"

/-- A parsed load level counts as overloaded when it is a defined number
at or above the threshold (an undefined or NaN level never does). -/
def overloadedByLoadLevel (threshold : ℚ) (loadLevel : Option (Option ℚ)) : Bool :=
  match loadLevel with
  | some (some x) => decide (threshold ≤ x)
  | _ => false

theorem parsedHeader_isSome (pf : String → Option ℚ) (s : Option String) :
    (parsedHeader pf s).isSome = headerSupplied s := by
  cases s with
  | none => rfl
  | some str =>
    by_cases hs : str = ""
    · simp [parsedHeader, headerSupplied, hs]
    · simp [parsedHeader, headerSupplied, hs]

/-- Counterexample to claim C9 as stated: a header mapping whose only
recognized field is X-Load-Shedding with the value false has a
recognized field present, yet recordFromHeaders stores nothing. -/
theorem recordFromHeaders_counterexample :
    ((⟨fun _ => none, 30000, 4 / 5⟩ : BackpressureManager).recordFromHeaders
        (fun _ => none) "svc" ⟨none, none, some "false"⟩ 0).signals "svc" = none ∧
    (⟨none, none, some "false"⟩ : RawHeaders).shedding.isSome = true := by
  exact ⟨rfl, rfl⟩

/-- Claim C9 (amended): recordFromHeaders stores a signal exactly when
the load-level header is supplied non-empty, or the retry-after header
is supplied non-empty, or the shedding header parses truthy (a present
shedding header with any other value, such as false, stores nothing);
the stored signal's isOverloaded is shedding OR a defined numeric load
level at or above the overload threshold, other service ids are
untouched, and when nothing is stored the manager is left entirely
unchanged. -/
theorem recordFromHeaders_spec (m : BackpressureManager) (pf : String → Option ℚ)
    (serviceId : String) (h : RawHeaders) (now : ℤ) :
    ((headerSupplied h.loadLevel || headerSupplied h.retryAfter
        || sheddingTruthy h.shedding) = false →
      m.recordFromHeaders pf serviceId h now = m) ∧
    ((headerSupplied h.loadLevel || headerSupplied h.retryAfter
        || sheddingTruthy h.shedding) = true →
      (m.recordFromHeaders pf serviceId h now).signals serviceId =
        some ⟨sheddingTruthy h.shedding
                || overloadedByLoadLevel m.overloadThreshold (parsedHeader pf h.loadLevel),
              parsedHeader pf h.loadLevel,
              (parsedHeader pf h.retryAfter).map (Option.map (· * 1000)), now⟩) ∧
    (∀ k, k ≠ serviceId →
      (m.recordFromHeaders pf serviceId h now).signals k = m.signals k) := by
  have hmap : ((parsedHeader pf h.retryAfter).map (Option.map (· * 1000))).isSome
      = (parsedHeader pf h.retryAfter).isSome := by
    cases parsedHeader pf h.retryAfter <;> rfl
  refine ⟨?_, ?_, ?_⟩
  · intro hfalse
    simp only [sheddingTruthy] at hfalse
    simp only [BackpressureManager.recordFromHeaders]
    rw [hmap, parsedHeader_isSome pf h.loadLevel, parsedHeader_isSome pf h.retryAfter, hfalse]
    simp
  · intro htrue
    simp only [sheddingTruthy] at htrue
    simp only [BackpressureManager.recordFromHeaders]
    rw [hmap, parsedHeader_isSome pf h.loadLevel, parsedHeader_isSome pf h.retryAfter, htrue]
    simp [BackpressureManager.recordSignal, sheddingTruthy, overloadedByLoadLevel]
  · intro k hk
    simp only [BackpressureManager.recordFromHeaders]
    split
    · simp [BackpressureManager.recordSignal, hk]
    · rfl

/-- Witness for the amended claim C9: a shedding header with value true
stores an overloaded signal. -/
theorem recordFromHeaders_spec_witness :
    ((⟨fun _ => none, 30000, 4 / 5⟩ : BackpressureManager).recordFromHeaders
        (fun _ => none) "svc" ⟨none, none, some "true"⟩ 7).signals "svc" =
      some ⟨true, none, none, 7⟩ := by
  have := (recordFromHeaders_spec ⟨fun _ => none, 30000, 4 / 5⟩ (fun _ => none)
    "svc" ⟨none, none, some "true"⟩ 7).2.1 rfl
  simpa using this

/-! Step lemmas for the retryWithCircuitBreaker loop. -/

theorem retryWithCBLoop_ok {E T : Type} (fn : ℕ → Except E T) (p : E → Bool)
    (clock : ℕ → ℤ) (fuel attempt : ℕ) (cb : CircuitBreaker) (v : T)
    (h : fn attempt = .ok v) :
    retryWithCBLoop fn p clock fuel attempt cb = ⟨.ok v, cb.recordSuccess, 1, 0, 1⟩ := by
  cases fuel <;> simp [retryWithCBLoop, h]

theorem retryWithCBLoop_error_zero {E T : Type} (fn : ℕ → Except E T) (p : E → Bool)
    (clock : ℕ → ℤ) (attempt : ℕ) (cb : CircuitBreaker) (e : E)
    (h : fn attempt = .error e) :
    retryWithCBLoop fn p clock 0 attempt cb
      = ⟨.error (.op e), cb.recordFailure (clock attempt), 1, 1, 0⟩ := by
  simp [retryWithCBLoop, h]

theorem retryWithCBLoop_error_denied {E T : Type} (fn : ℕ → Except E T) (p : E → Bool)
    (clock : ℕ → ℤ) (f attempt : ℕ) (cb : CircuitBreaker) (e : E)
    (h : fn attempt = .error e)
    (ha : ((cb.recordFailure (clock attempt)).isAllowed (clock attempt)).1 = false) :
    retryWithCBLoop fn p clock (f + 1) attempt cb
      = ⟨.error (.op e),
          (((cb.recordFailure (clock attempt)).isAllowed (clock attempt)).2).recordFailure
            (clock attempt), 1, 2, 0⟩ := by
  conv_lhs => rw [retryWithCBLoop]
  simp [h, ha]

theorem retryWithCBLoop_error_predStop {E T : Type} (fn : ℕ → Except E T) (p : E → Bool)
    (clock : ℕ → ℤ) (f attempt : ℕ) (cb : CircuitBreaker) (e : E)
    (h : fn attempt = .error e)
    (ha : ((cb.recordFailure (clock attempt)).isAllowed (clock attempt)).1 = true)
    (hp : p e = false) :
    retryWithCBLoop fn p clock (f + 1) attempt cb
      = ⟨.error (.op e),
          (((cb.recordFailure (clock attempt)).isAllowed (clock attempt)).2).recordFailure
            (clock attempt), 1, 2, 0⟩ := by
  conv_lhs => rw [retryWithCBLoop]
  simp [h, ha, hp]

theorem retryWithCBLoop_error_continue {E T : Type} (fn : ℕ → Except E T) (p : E → Bool)
    (clock : ℕ → ℤ) (f attempt : ℕ) (cb : CircuitBreaker) (e : E)
    (h : fn attempt = .error e)
    (ha : ((cb.recordFailure (clock attempt)).isAllowed (clock attempt)).1 = true)
    (hp : p e = true) :
    retryWithCBLoop fn p clock (f + 1) attempt cb
      = ⟨(retryWithCBLoop fn p clock f (attempt + 1)
            (((cb.recordFailure (clock attempt)).isAllowed (clock attempt)).2)).result,
         (retryWithCBLoop fn p clock f (attempt + 1)
            (((cb.recordFailure (clock attempt)).isAllowed (clock attempt)).2)).breaker,
         (retryWithCBLoop fn p clock f (attempt + 1)
            (((cb.recordFailure (clock attempt)).isAllowed (clock attempt)).2)).calls + 1,
         (retryWithCBLoop fn p clock f (attempt + 1)
            (((cb.recordFailure (clock attempt)).isAllowed (clock attempt)).2)).failRecords + 1,
         (retryWithCBLoop fn p clock f (attempt + 1)
            (((cb.recordFailure (clock attempt)).isAllowed (clock attempt)).2)).succRecords⟩ := by
  conv_lhs => rw [retryWithCBLoop]
  simp [h, ha, hp]

/-! Step lemmas for the retryWithProtection loop. -/

theorem retryWithProtectionLoop_ok {E T : Type} (fn : ℕ → Except E T) (p : E → Bool)
    (clock : ℕ → ℤ) (rand : ℕ → ℚ) (backpressure : ℕ → Option Bool)
    (fuel attempt : ℕ) (cb : CircuitBreaker) (b : AdaptiveRetryBudget) (v : T)
    (h : fn attempt = .ok v) :
    retryWithProtectionLoop fn p clock rand backpressure fuel attempt cb b
      = ⟨.ok v, cb.recordSuccess, b.recordOutcome true, 1, 0, 1⟩ := by
  cases fuel <;> simp [retryWithProtectionLoop, h]

theorem retryWithProtectionLoop_error_zero {E T : Type} (fn : ℕ → Except E T) (p : E → Bool)
    (clock : ℕ → ℤ) (rand : ℕ → ℚ) (backpressure : ℕ → Option Bool)
    (attempt : ℕ) (cb : CircuitBreaker) (b : AdaptiveRetryBudget) (e : E)
    (h : fn attempt = .error e) :
    retryWithProtectionLoop fn p clock rand backpressure 0 attempt cb b
      = ⟨.error (.op e), cb.recordFailure (clock attempt), b.recordOutcome false, 1, 1, 0⟩ := by
  simp [retryWithProtectionLoop, h]

theorem retryWithProtectionLoop_error_predStop {E T : Type} (fn : ℕ → Except E T)
    (p : E → Bool) (clock : ℕ → ℤ) (rand : ℕ → ℚ) (backpressure : ℕ → Option Bool)
    (f attempt : ℕ) (cb : CircuitBreaker) (b : AdaptiveRetryBudget) (e : E)
    (h : fn attempt = .error e) (hp : p e = false) :
    retryWithProtectionLoop fn p clock rand backpressure (f + 1) attempt cb b
      = ⟨.error (.op e), cb.recordFailure (clock attempt), b.recordOutcome false, 1, 1, 0⟩ := by
  conv_lhs => rw [retryWithProtectionLoop]
  simp [h, hp]

theorem retryWithProtectionLoop_error_circuitOpen {E T : Type} (fn : ℕ → Except E T)
    (p : E → Bool) (clock : ℕ → ℤ) (rand : ℕ → ℚ) (backpressure : ℕ → Option Bool)
    (f attempt : ℕ) (cb : CircuitBreaker) (b : AdaptiveRetryBudget) (e : E)
    (h : fn attempt = .error e) (hp : p e = true)
    (ha : ((cb.recordFailure (clock attempt)).isAllowed (clock attempt)).1 = false) :
    retryWithProtectionLoop fn p clock rand backpressure (f + 1) attempt cb b
      = ⟨.error (.circuitOpen "Circuit opened during retry sequence"),
          ((cb.recordFailure (clock attempt)).isAllowed (clock attempt)).2,
          b.recordOutcome false, 1, 1, 0⟩ := by
  conv_lhs => rw [retryWithProtectionLoop]
  simp [h, hp, ha]

theorem retryWithProtectionLoop_error_budgetDeny {E T : Type} (fn : ℕ → Except E T)
    (p : E → Bool) (clock : ℕ → ℤ) (rand : ℕ → ℚ) (backpressure : ℕ → Option Bool)
    (f attempt : ℕ) (cb : CircuitBreaker) (b : AdaptiveRetryBudget) (e : E)
    (h : fn attempt = .error e) (hp : p e = true)
    (ha : ((cb.recordFailure (clock attempt)).isAllowed (clock attempt)).1 = true)
    (hs : ((b.recordOutcome false).shouldRetry (backpressure attempt) (rand attempt)).1
      = false) :
    retryWithProtectionLoop fn p clock rand backpressure (f + 1) attempt cb b
      = ⟨.error (.op e),
          ((cb.recordFailure (clock attempt)).isAllowed (clock attempt)).2,
          ((b.recordOutcome false).shouldRetry (backpressure attempt) (rand attempt)).2,
          1, 1, 0⟩ := by
  conv_lhs => rw [retryWithProtectionLoop]
  simp [h, hp, ha, hs]

theorem retryWithProtectionLoop_error_continue {E T : Type} (fn : ℕ → Except E T)
    (p : E → Bool) (clock : ℕ → ℤ) (rand : ℕ → ℚ) (backpressure : ℕ → Option Bool)
    (f attempt : ℕ) (cb : CircuitBreaker) (b : AdaptiveRetryBudget) (e : E)
    (h : fn attempt = .error e) (hp : p e = true)
    (ha : ((cb.recordFailure (clock attempt)).isAllowed (clock attempt)).1 = true)
    (hs : ((b.recordOutcome false).shouldRetry (backpressure attempt) (rand attempt)).1
      = true) :
    retryWithProtectionLoop fn p clock rand backpressure (f + 1) attempt cb b
      = ⟨(retryWithProtectionLoop fn p clock rand backpressure f (attempt + 1)
            (((cb.recordFailure (clock attempt)).isAllowed (clock attempt)).2)
            (((b.recordOutcome false).shouldRetry (backpressure attempt)
              (rand attempt)).2)).result,
         (retryWithProtectionLoop fn p clock rand backpressure f (attempt + 1)
            (((cb.recordFailure (clock attempt)).isAllowed (clock attempt)).2)
            (((b.recordOutcome false).shouldRetry (backpressure attempt)
              (rand attempt)).2)).breaker,
         (retryWithProtectionLoop fn p clock rand backpressure f (attempt + 1)
            (((cb.recordFailure (clock attempt)).isAllowed (clock attempt)).2)
            (((b.recordOutcome false).shouldRetry (backpressure attempt)
              (rand attempt)).2)).budget,
         (retryWithProtectionLoop fn p clock rand backpressure f (attempt + 1)
            (((cb.recordFailure (clock attempt)).isAllowed (clock attempt)).2)
            (((b.recordOutcome false).shouldRetry (backpressure attempt)
              (rand attempt)).2)).calls + 1,
         (retryWithProtectionLoop fn p clock rand backpressure f (attempt + 1)
            (((cb.recordFailure (clock attempt)).isAllowed (clock attempt)).2)
            (((b.recordOutcome false).shouldRetry (backpressure attempt)
              (rand attempt)).2)).failRecords + 1,
         (retryWithProtectionLoop fn p clock rand backpressure f (attempt + 1)
            (((cb.recordFailure (clock attempt)).isAllowed (clock attempt)).2)
            (((b.recordOutcome false).shouldRetry (backpressure attempt)
              (rand attempt)).2)).succRecords⟩ := by
  conv_lhs => rw [retryWithProtectionLoop]
  simp [h, hp, ha, hs]

/-- The record-count bookkeeping of one retryWithCBLoop run with the
given remaining quota: a success records one failure per preceding
failed attempt plus one success; an error outcome that exhausted the
quota records exactly one failure per failed attempt, while an error
outcome cut short by a denial records one extra failure; the loop never
raises the circuit-open error itself. -/
def cbCountsOK {E T : Type} (fuel : ℕ) (r : CBRun E T) : Prop :=
  (exceptOk r.result = true → r.failRecords + 1 = r.calls ∧ r.succRecords = 1) ∧
  (exceptOk r.result = false →
    (r.calls = fuel + 1 → r.failRecords = r.calls) ∧
    (r.calls ≤ fuel → r.failRecords = r.calls + 1) ∧
    r.succRecords = 0) ∧
  (∀ msg, r.result ≠ .error (.circuitOpen msg))

theorem retryWithCBLoop_counts {E T : Type} (fn : ℕ → Except E T) (p : E → Bool)
    (clock : ℕ → ℤ) :
    ∀ (fuel attempt : ℕ) (cb : CircuitBreaker),
      cbCountsOK fuel (retryWithCBLoop fn p clock fuel attempt cb) := by
  intro fuel
  induction fuel with
  | zero =>
    intro attempt cb
    cases hfn : fn attempt with
    | ok v =>
      rw [retryWithCBLoop_ok fn p clock 0 attempt cb v hfn]
      exact ⟨fun _ => ⟨rfl, rfl⟩, fun hc => by simp [exceptOk] at hc, fun msg => by simp⟩
    | error e =>
      rw [retryWithCBLoop_error_zero fn p clock attempt cb e hfn]
      exact ⟨fun hc => by simp [exceptOk] at hc,
        fun _ => ⟨fun _ => rfl, fun hle => by dsimp only at hle; omega, rfl⟩,
        fun msg => by simp⟩
  | succ f ih =>
    intro attempt cb
    cases hfn : fn attempt with
    | ok v =>
      rw [retryWithCBLoop_ok fn p clock (f + 1) attempt cb v hfn]
      exact ⟨fun _ => ⟨rfl, rfl⟩, fun hc => by simp [exceptOk] at hc, fun msg => by simp⟩
    | error e =>
      cases ha : ((cb.recordFailure (clock attempt)).isAllowed (clock attempt)).1 with
      | false =>
        rw [retryWithCBLoop_error_denied fn p clock f attempt cb e hfn ha]
        exact ⟨fun hc => by simp [exceptOk] at hc,
          fun _ => ⟨fun hc => by dsimp only at hc; omega, fun _ => rfl, rfl⟩,
          fun msg => by simp⟩
      | true =>
        cases hp : p e with
        | false =>
          rw [retryWithCBLoop_error_predStop fn p clock f attempt cb e hfn ha hp]
          exact ⟨fun hc => by simp [exceptOk] at hc,
            fun _ => ⟨fun hc => by dsimp only at hc; omega, fun _ => rfl, rfl⟩,
            fun msg => by simp⟩
        | true =>
          rw [retryWithCBLoop_error_continue fn p clock f attempt cb e hfn ha hp]
          obtain ⟨ihok, iherr, ihco⟩ := ih (attempt + 1)
            (((cb.recordFailure (clock attempt)).isAllowed (clock attempt)).2)
          refine ⟨fun hok => ?_, fun herr => ?_, fun msg hmsg => ihco msg hmsg⟩
          · obtain ⟨hf1, hs1⟩ := ihok hok
            exact ⟨by dsimp only; omega, hs1⟩
          · obtain ⟨he1, he2, he3⟩ := iherr herr
            refine ⟨fun hc => ?_, fun hc => ?_, he3⟩
            · dsimp only at hc ⊢
              have := he1 (by omega)
              omega
            · dsimp only at hc ⊢
              have := he2 (by omega)
              omega

/-- The record-count bookkeeping of one retryWithProtectionLoop run:
every failed attempt records exactly one failure and a success records
exactly one success, in every exit path. -/
def protCountsOK {E T : Type} (r : ProtectionRun E T) : Prop :=
  (exceptOk r.result = true → r.failRecords + 1 = r.calls ∧ r.succRecords = 1) ∧
  (exceptOk r.result = false → r.failRecords = r.calls ∧ r.succRecords = 0)

theorem retryWithProtectionLoop_counts {E T : Type} (fn : ℕ → Except E T) (p : E → Bool)
    (clock : ℕ → ℤ) (rand : ℕ → ℚ) (backpressure : ℕ → Option Bool) :
    ∀ (fuel attempt : ℕ) (cb : CircuitBreaker) (b : AdaptiveRetryBudget),
      protCountsOK (retryWithProtectionLoop fn p clock rand backpressure fuel attempt cb b) := by
  intro fuel
  induction fuel with
  | zero =>
    intro attempt cb b
    cases hfn : fn attempt with
    | ok v =>
      rw [retryWithProtectionLoop_ok fn p clock rand backpressure 0 attempt cb b v hfn]
      exact ⟨fun _ => ⟨rfl, rfl⟩, fun hc => by simp [exceptOk] at hc⟩
    | error e =>
      rw [retryWithProtectionLoop_error_zero fn p clock rand backpressure attempt cb b e hfn]
      exact ⟨fun hc => by simp [exceptOk] at hc, fun _ => ⟨rfl, rfl⟩⟩
  | succ f ih =>
    intro attempt cb b
    cases hfn : fn attempt with
    | ok v =>
      rw [retryWithProtectionLoop_ok fn p clock rand backpressure (f + 1) attempt cb b v hfn]
      exact ⟨fun _ => ⟨rfl, rfl⟩, fun hc => by simp [exceptOk] at hc⟩
    | error e =>
      cases hp : p e with
      | false =>
        rw [retryWithProtectionLoop_error_predStop fn p clock rand backpressure
          f attempt cb b e hfn hp]
        exact ⟨fun hc => by simp [exceptOk] at hc, fun _ => ⟨rfl, rfl⟩⟩
      | true =>
        cases ha : ((cb.recordFailure (clock attempt)).isAllowed (clock attempt)).1 with
        | false =>
          rw [retryWithProtectionLoop_error_circuitOpen fn p clock rand backpressure
            f attempt cb b e hfn hp ha]
          exact ⟨fun hc => by simp [exceptOk] at hc, fun _ => ⟨rfl, rfl⟩⟩
        | true =>
          cases hs : ((b.recordOutcome false).shouldRetry (backpressure attempt)
              (rand attempt)).1 with
          | false =>
            rw [retryWithProtectionLoop_error_budgetDeny fn p clock rand backpressure
              f attempt cb b e hfn hp ha hs]
            exact ⟨fun hc => by simp [exceptOk] at hc, fun _ => ⟨rfl, rfl⟩⟩
          | true =>
            rw [retryWithProtectionLoop_error_continue fn p clock rand backpressure
              f attempt cb b e hfn hp ha hs]
            obtain ⟨ihok, iherr⟩ := ih (attempt + 1)
              (((cb.recordFailure (clock attempt)).isAllowed (clock attempt)).2)
              (((b.recordOutcome false).shouldRetry (backpressure attempt) (rand attempt)).2)
            refine ⟨fun hok => ?_, fun herr => ?_⟩
            · obtain ⟨hf1, hs1⟩ := ihok hok
              exact ⟨by dsimp only; omega, hs1⟩
            · obtain ⟨hf1, hs1⟩ := iherr herr
              exact ⟨by dsimp only; omega, hs1⟩

theorem retryWithCircuitBreaker_preflight {E T : Type} (fn : ℕ → Except E T) (p : E → Bool)
    (maxRetries : ℕ) (cb : CircuitBreaker) (clock : ℕ → ℤ)
    (hpre : (cb.isAllowed (clock 0)).1 = false) :
    retryWithCircuitBreaker fn p maxRetries cb clock
      = ⟨.error (.circuitOpen "Circuit breaker is open"),
          (cb.isAllowed (clock 0)).2, 0, 0, 0⟩ := by
  simp only [retryWithCircuitBreaker]
  rw [hpre]
  simp

theorem retryWithCircuitBreaker_runs {E T : Type} (fn : ℕ → Except E T) (p : E → Bool)
    (maxRetries : ℕ) (cb : CircuitBreaker) (clock : ℕ → ℤ)
    (hpre : (cb.isAllowed (clock 0)).1 = true) :
    retryWithCircuitBreaker fn p maxRetries cb clock
      = retryWithCBLoop fn p clock maxRetries 0 (cb.isAllowed (clock 0)).2 := by
  simp only [retryWithCircuitBreaker]
  rw [hpre]
  simp

theorem retryWithProtection_preflight {E T : Type} (fn : ℕ → Except E T) (p : E → Bool)
    (maxRetries : ℕ) (cb : CircuitBreaker) (b : AdaptiveRetryBudget)
    (clock : ℕ → ℤ) (rand : ℕ → ℚ) (backpressure : ℕ → Option Bool)
    (hpre : (cb.isAllowed (clock 0)).1 = false) :
    retryWithProtection fn p maxRetries cb b clock rand backpressure
      = ⟨.error (.circuitOpen "Circuit breaker is open"),
          (cb.isAllowed (clock 0)).2, b, 0, 0, 0⟩ := by
  simp only [retryWithProtection]
  rw [hpre]
  simp

theorem retryWithProtection_runs {E T : Type} (fn : ℕ → Except E T) (p : E → Bool)
    (maxRetries : ℕ) (cb : CircuitBreaker) (b : AdaptiveRetryBudget)
    (clock : ℕ → ℤ) (rand : ℕ → ℚ) (backpressure : ℕ → Option Bool)
    (hpre : (cb.isAllowed (clock 0)).1 = true) :
    retryWithProtection fn p maxRetries cb b clock rand backpressure
      = retryWithProtectionLoop fn p clock rand backpressure maxRetries 0
          (cb.isAllowed (clock 0)).2 b := by
  simp only [retryWithProtection]
  rw [hpre]
  simp

/-- Claim C2 (amended): in retryWithProtection every failed attempt
records exactly one failure on the breaker and a success records exactly
one success, on every exit path; in retryWithCircuitBreaker this holds
for runs that end in success or by exhausting the retry quota, but a run
cut short by the retry predicate or by the breaker denying a retry
(calls at most maxRetries with an operation error) records the final
failed attempt twice; a pre-flight circuit-open rejection makes no calls
and records nothing. -/
theorem breaker_record_counts {E T : Type} (fn : ℕ → Except E T) (p : E → Bool)
    (maxRetries : ℕ) (cb : CircuitBreaker) (b : AdaptiveRetryBudget)
    (clock : ℕ → ℤ) (rand : ℕ → ℚ) (backpressure : ℕ → Option Bool) :
    (∀ v : T, (retryWithCircuitBreaker fn p maxRetries cb clock).result = .ok v →
      (retryWithCircuitBreaker fn p maxRetries cb clock).failRecords + 1
          = (retryWithCircuitBreaker fn p maxRetries cb clock).calls ∧
      (retryWithCircuitBreaker fn p maxRetries cb clock).succRecords = 1) ∧
    (∀ e : E, (retryWithCircuitBreaker fn p maxRetries cb clock).result = .error (.op e) →
      ((retryWithCircuitBreaker fn p maxRetries cb clock).calls = maxRetries + 1 →
        (retryWithCircuitBreaker fn p maxRetries cb clock).failRecords
            = (retryWithCircuitBreaker fn p maxRetries cb clock).calls) ∧
      ((retryWithCircuitBreaker fn p maxRetries cb clock).calls ≤ maxRetries →
        (retryWithCircuitBreaker fn p maxRetries cb clock).failRecords
            = (retryWithCircuitBreaker fn p maxRetries cb clock).calls + 1) ∧
      (retryWithCircuitBreaker fn p maxRetries cb clock).succRecords = 0) ∧
    (∀ msg, (retryWithCircuitBreaker fn p maxRetries cb clock).result
          = .error (.circuitOpen msg) →
      (retryWithCircuitBreaker fn p maxRetries cb clock).calls = 0 ∧
      (retryWithCircuitBreaker fn p maxRetries cb clock).failRecords = 0 ∧
      (retryWithCircuitBreaker fn p maxRetries cb clock).succRecords = 0) ∧
    (exceptOk (retryWithProtection fn p maxRetries cb b clock rand backpressure).result
        = true →
      (retryWithProtection fn p maxRetries cb b clock rand backpressure).failRecords + 1
          = (retryWithProtection fn p maxRetries cb b clock rand backpressure).calls ∧
      (retryWithProtection fn p maxRetries cb b clock rand backpressure).succRecords = 1) ∧
    (exceptOk (retryWithProtection fn p maxRetries cb b clock rand backpressure).result
        = false →
      (retryWithProtection fn p maxRetries cb b clock rand backpressure).failRecords
          = (retryWithProtection fn p maxRetries cb b clock rand backpressure).calls ∧
      (retryWithProtection fn p maxRetries cb b clock rand backpressure).succRecords
          = 0) := by
  by_cases hpre : (cb.isAllowed (clock 0)).1 = false
  · rw [retryWithCircuitBreaker_preflight fn p maxRetries cb clock hpre,
      retryWithProtection_preflight fn p maxRetries cb b clock rand backpressure hpre]
    refine ⟨?_, ?_, ?_, ?_, ?_⟩
    · intro v hv
      exact absurd hv (by simp)
    · intro e he
      exact absurd he (by simp)
    · intro msg _
      exact ⟨rfl, rfl, rfl⟩
    · intro hok
      exact absurd hok (by simp [exceptOk])
    · intro _
      exact ⟨rfl, rfl⟩
  · have hpre1 : (cb.isAllowed (clock 0)).1 = true := by
      cases hc : (cb.isAllowed (clock 0)).1
      · exact absurd hc hpre
      · rfl
    rw [retryWithCircuitBreaker_runs fn p maxRetries cb clock hpre1,
      retryWithProtection_runs fn p maxRetries cb b clock rand backpressure hpre1]
    obtain ⟨cok, cerr, cco⟩ :=
      retryWithCBLoop_counts fn p clock maxRetries 0 (cb.isAllowed (clock 0)).2
    obtain ⟨pok, perr⟩ := retryWithProtectionLoop_counts fn p clock rand backpressure
      maxRetries 0 (cb.isAllowed (clock 0)).2 b
    refine ⟨?_, ?_, ?_, pok, perr⟩
    · intro v hv
      exact cok (by rw [hv]; rfl)
    · intro e he
      exact cerr (by rw [he]; rfl)
    · intro msg hmsg
      exact absurd hmsg (cco msg)

/-- Counterexample to claim C2 as stated: a run of
retryWithCircuitBreaker whose single failed attempt is denied a retry by
the predicate makes one call but two recordFailure calls (once inside
the composed predicate and once in the outer catch). -/
theorem double_failure_record_counterexample :
    (retryWithCircuitBreaker (fun _ => (.error 0 : Except ℕ ℕ)) (fun _ => false) 1
        (⟨.closed, [], 0, 0, 1 / 2, 10, 30000⟩ : CircuitBreaker) (fun _ => 0)).calls = 1 ∧
    (retryWithCircuitBreaker (fun _ => (.error 0 : Except ℕ ℕ)) (fun _ => false) 1
        (⟨.closed, [], 0, 0, 1 / 2, 10, 30000⟩ : CircuitBreaker) (fun _ => 0)).failRecords
      = 2 := by
  exact ⟨rfl, rfl⟩

/-- Witness for the amended claim C2: a first-attempt success under
retryWithProtection records no failure and one success. -/
theorem breaker_record_counts_witness :
    (retryWithProtection (fun _ => (.ok 5 : Except ℕ ℕ)) (fun _ => true) 3
        (⟨.closed, [], 0, 0, 1 / 2, 10, 30000⟩ : CircuitBreaker)
        (⟨1 / 5, 0, 0, 0, 0, 0, 1 / 5, 1 / 10, 1 / 2, 3 / 10, 1 / 20⟩ : AdaptiveRetryBudget)
        (fun _ => 0) (fun _ => 0) (fun _ => none)).failRecords + 1
      = (retryWithProtection (fun _ => (.ok 5 : Except ℕ ℕ)) (fun _ => true) 3
        (⟨.closed, [], 0, 0, 1 / 2, 10, 30000⟩ : CircuitBreaker)
        (⟨1 / 5, 0, 0, 0, 0, 0, 1 / 5, 1 / 10, 1 / 2, 3 / 10, 1 / 20⟩ : AdaptiveRetryBudget)
        (fun _ => 0) (fun _ => 0) (fun _ => none)).calls ∧
    (retryWithProtection (fun _ => (.ok 5 : Except ℕ ℕ)) (fun _ => true) 3
        (⟨.closed, [], 0, 0, 1 / 2, 10, 30000⟩ : CircuitBreaker)
        (⟨1 / 5, 0, 0, 0, 0, 0, 1 / 5, 1 / 10, 1 / 2, 3 / 10, 1 / 20⟩ : AdaptiveRetryBudget)
        (fun _ => 0) (fun _ => 0) (fun _ => none)).succRecords = 1 :=
  (breaker_record_counts (fun _ => (.ok 5 : Except ℕ ℕ)) (fun _ => true) 3
      (⟨.closed, [], 0, 0, 1 / 2, 10, 30000⟩ : CircuitBreaker)
      (⟨1 / 5, 0, 0, 0, 0, 0, 1 / 5, 1 / 10, 1 / 2, 3 / 10, 1 / 20⟩ : AdaptiveRetryBudget)
      (fun _ => 0) (fun _ => 0) (fun _ => none)).2.2.2.1 rfl

/-- Claim C1 (amended): from any reachable loop state in which the
attempt fails, retries remain, the retry predicate accepts the error and
the breaker's isAllowed after recording the failure reports false,
retryWithProtection aborts with the distinct circuit-open error, while
retryWithCircuitBreaker instead re-raises the operation's own last
error. -/
theorem circuit_denial_abort {E T : Type} (fn : ℕ → Except E T) (p : E → Bool)
    (clock : ℕ → ℤ) (rand : ℕ → ℚ) (backpressure : ℕ → Option Bool)
    (f attempt : ℕ) (cb : CircuitBreaker) (b : AdaptiveRetryBudget) (e : E)
    (hf : fn attempt = .error e) (hp : p e = true)
    (hdenied : ((cb.recordFailure (clock attempt)).isAllowed (clock attempt)).1 = false) :
    (retryWithProtectionLoop fn p clock rand backpressure (f + 1) attempt cb b).result
        = .error (.circuitOpen "Circuit opened during retry sequence") ∧
    (retryWithCBLoop fn p clock (f + 1) attempt cb).result = .error (.op e) := by
  constructor
  · rw [retryWithProtectionLoop_error_circuitOpen fn p clock rand backpressure
      f attempt cb b e hf hp hdenied]
  · rw [retryWithCBLoop_error_denied fn p clock f attempt cb e hf hdenied]

/-- Counterexample to claim C1 as stated: with a breaker of window size
1 and threshold 1/2, the first failed attempt trips the breaker, its
isAllowed reports false while retries remain and the predicate accepts,
yet retryWithCircuitBreaker raises the operation's own error, not the
circuit-open error. -/
theorem retryWithCircuitBreaker_denial_counterexample :
    (((⟨.closed, [], 0, 0, 1 / 2, 1, 30000⟩ : CircuitBreaker).recordFailure 0).isAllowed
        0).1 = false ∧
    (retryWithCircuitBreaker (fun _ => (.error 0 : Except ℕ ℕ)) (fun _ => true) 2
        (⟨.closed, [], 0, 0, 1 / 2, 1, 30000⟩ : CircuitBreaker) (fun _ => 0)).result
        = .error (.op 0) := by
  have h1 : (⟨.closed, [], 0, 0, 1 / 2, 1, 30000⟩ : CircuitBreaker).recordFailure 0
      = ⟨.opened, [true], 0, 0, 1 / 2, 1, 30000⟩ := by
    norm_num [CircuitBreaker.recordFailure, CircuitBreaker.transition, trimWindow,
      CircuitBreaker.getFailureRate]
  have h2 : (⟨.opened, [true], 0, 0, 1 / 2, 1, 30000⟩ : CircuitBreaker).isAllowed 0
      = (false, ⟨.opened, [true], 0, 0, 1 / 2, 1, 30000⟩) :=
    isAllowed_of_opened_recent _ 0 rfl (by norm_num)
  have hden : (((⟨.closed, [], 0, 0, 1 / 2, 1, 30000⟩ : CircuitBreaker).recordFailure
      0).isAllowed 0).1 = false := by
    rw [h1, h2]
  refine ⟨hden, ?_⟩
  rw [retryWithCircuitBreaker_runs (fun _ => (.error 0 : Except ℕ ℕ)) (fun _ => true) 2
    (⟨.closed, [], 0, 0, 1 / 2, 1, 30000⟩ : CircuitBreaker) (fun _ => 0)
    (by rw [isAllowed_of_closed _ _ rfl]),
    isAllowed_of_closed (⟨.closed, [], 0, 0, 1 / 2, 1, 30000⟩ : CircuitBreaker) 0 rfl]
  exact (circuit_denial_abort (fun _ => (.error 0 : Except ℕ ℕ)) (fun _ => true)
    (fun _ => 0) (fun _ => 0) (fun _ => none) 1 0
    (⟨.closed, [], 0, 0, 1 / 2, 1, 30000⟩ : CircuitBreaker)
    (⟨1 / 5, 0, 0, 0, 0, 0, 1 / 5, 1 / 10, 1 / 2, 3 / 10, 1 / 20⟩ : AdaptiveRetryBudget)
    0 rfl rfl hden).2

/-- Witness for the amended claim C1: the same denial makes
retryWithProtectionLoop abort with the circuit-open error. -/
theorem circuit_denial_abort_witness :
    (retryWithProtectionLoop (fun _ => (.error 0 : Except ℕ ℕ)) (fun _ => true)
        (fun _ => 0) (fun _ => 0) (fun _ => none) 2 0
        (⟨.closed, [], 0, 0, 1 / 2, 1, 30000⟩ : CircuitBreaker)
        (⟨1 / 5, 0, 0, 0, 0, 0, 1 / 5, 1 / 10, 1 / 2, 3 / 10, 1 / 20⟩ :
          AdaptiveRetryBudget)).result
      = .error (.circuitOpen "Circuit opened during retry sequence") := by
  have h1 : (⟨.closed, [], 0, 0, 1 / 2, 1, 30000⟩ : CircuitBreaker).recordFailure 0
      = ⟨.opened, [true], 0, 0, 1 / 2, 1, 30000⟩ := by
    norm_num [CircuitBreaker.recordFailure, CircuitBreaker.transition, trimWindow,
      CircuitBreaker.getFailureRate]
  have h2 : (⟨.opened, [true], 0, 0, 1 / 2, 1, 30000⟩ : CircuitBreaker).isAllowed 0
      = (false, ⟨.opened, [true], 0, 0, 1 / 2, 1, 30000⟩) :=
    isAllowed_of_opened_recent _ 0 rfl (by norm_num)
  have hden : (((⟨.closed, [], 0, 0, 1 / 2, 1, 30000⟩ : CircuitBreaker).recordFailure
      0).isAllowed 0).1 = false := by
    rw [h1, h2]
  exact (circuit_denial_abort (fun _ => (.error 0 : Except ℕ ℕ)) (fun _ => true)
    (fun _ => 0) (fun _ => 0) (fun _ => none) 1 0
    (⟨.closed, [], 0, 0, 1 / 2, 1, 30000⟩ : CircuitBreaker)
    (⟨1 / 5, 0, 0, 0, 0, 0, 1 / 5, 1 / 10, 1 / 2, 3 / 10, 1 / 20⟩ : AdaptiveRetryBudget)
    0 rfl rfl hden).1

end PoliteRetry
